import Mathlib

/-!
Verification of the Feedspace widget-validation suite.

Shallow embedding of the pure/decidable logic of:
* `widgetDetector.js` — taxonomy tables, `identify`, the post-evaluation
  classification logic of `discover`, `isSameType`;
* `verticalScrollHelper.js` / `horizontalScrollHelper.js` — the movement
  analysis that follows the three-phase position sampling;
* `aiEngine.js` — the retry/backoff loop of `analyzeScreenshot`;
* `playwrightHelper.js` — the zero-candidate early path of `validateWithAI`.

JavaScript values relevant to the embedded code are numbers, strings, `null`
and `undefined`; absent object fields are `undefined`.  We model
number-or-string-or-null as `JSVal` and an optional field as `Option JSVal`
with `none` standing for `undefined`/absent.
-/

/-- A JavaScript value as consumed by `WidgetDetector.identify`:
a number (the embedded code only ever treats integral ids), a string,
or `null`. -/
inductive JSVal where
  | num (n : Int)
  | str (s : String)
  | jsNull
deriving DecidableEq, Repr

/-- The config record passed to `WidgetDetector.identify`: it may carry
`widget_type_id` and/or `type`; `none` models an absent (`undefined`) field. -/
structure IdentifyConfig where
  widget_type_id : Option JSVal := none
  type : Option JSVal := none
deriving DecidableEq, Repr

/-- JavaScript `a ?? b`: yields `b` exactly when `a` is `null` or
`undefined`. -/
def jsNullish (a b : Option JSVal) : Option JSVal :=
  match a with
  | none => b
  | some JSVal.jsNull => b
  | some v => some v

/-- JavaScript `parseInt(s, 10)`: skip leading whitespace, read an optional
sign and a maximal run of decimal digits; `none` models `NaN` (no digits). -/
def jsParseInt (s : String) : Option Int :=
  let cs := s.toList.dropWhile (fun c => c.isWhitespace)
  let signAndRest : Int × List Char :=
    match cs with
    | '-' :: rest => (-1, rest)
    | '+' :: rest => (1, rest)
    | _ => (1, cs)
  let digits := signAndRest.2.takeWhile (fun c => c.isDigit)
  if digits.isEmpty then none
  else some (signAndRest.1 *
    (digits.foldl (fun acc c => acc * 10 + (c.toNat - 48)) (0 : Nat) : Nat))

/-- JavaScript `s.toLowerCase().replace(/[_\- ]/g, '')` (ASCII inputs). -/
def lowerStrip (s : String) : String :=
  String.mk ((s.toList.map Char.toLower).filter
    (fun c => c != '_' && c != '-' && c != ' '))

/-- JavaScript `s.toUpperCase().replace(/[- ]/g, '_')` (ASCII inputs). -/
def upperUnderscore (s : String) : String :=
  String.mk (s.toList.map (fun c =>
    if c = '-' || c = ' ' then '_' else c.toUpper))

/-- The `WidgetTypeConstants` table of `widgetDetector.js`: numeric widget
type codes 4–11 to canonical names; `none` models an absent key. -/
def WidgetTypeConstants (n : Int) : Option String :=
  if n = 4 then some "CAROUSEL_SLIDER"
  else if n = 5 then some "MASONRY"
  else if n = 6 then some "MARQUEE_STRIPE"
  else if n = 7 then some "AVATAR_GROUP"
  else if n = 8 then some "SINGLE_SLIDER"
  else if n = 9 then some "MARQUEE_UPDOWN"
  else if n = 10 then some "MARQUEE_LEFTRIGHT"
  else if n = 11 then some "FLOATING_TOAST"
  else none

/-- The `WidgetTypeNames` table of `widgetDetector.js`: canonical names back
to their numeric codes. -/
def WidgetTypeNames (s : String) : Option Int :=
  if s = "CAROUSEL_SLIDER" then some 4
  else if s = "MASONRY" then some 5
  else if s = "MARQUEE_STRIPE" then some 6
  else if s = "AVATAR_GROUP" then some 7
  else if s = "SINGLE_SLIDER" then some 8
  else if s = "MARQUEE_UPDOWN" then some 9
  else if s = "MARQUEE_LEFTRIGHT" then some 10
  else if s = "FLOATING_TOAST" then some 11
  else none

/-- The `WidgetAliases` table of `widgetDetector.js`: normalized frontend
alias strings to backend canonical names. -/
def WidgetAliases (s : String) : Option String :=
  if s = "stripslider" then some "MARQUEE_STRIPE"
  else if s = "strip_slider" then some "MARQUEE_STRIPE"
  else if s = "marqueeslider" then some "MARQUEE_STRIPE"
  else if s = "carouselslider" then some "CAROUSEL_SLIDER"
  else if s = "carousel" then some "CAROUSEL_SLIDER"
  else if s = "singleslider" then some "SINGLE_SLIDER"
  else if s = "marqueeupdown" then some "MARQUEE_UPDOWN"
  else if s = "marqueeuptown" then some "MARQUEE_UPDOWN"
  else if s = "marqueeleftright" then some "MARQUEE_LEFTRIGHT"
  else if s = "floatingtoast" then some "FLOATING_TOAST"
  else if s = "avatargroup" then some "AVATAR_GROUP"
  else if s = "masonry" then some "MASONRY"
  else if s = "marqueestripe" then some "MARQUEE_STRIPE"
  else none

namespace WidgetDetector

/-- String-name resolution tail of `WidgetDetector.identify`
(`widgetDetector.js` lines 77–89): alias lookup on the stripped lowercase
form, then a check of the uppercased form against the constant names. -/
def identifyString (raw : JSVal) : String :=
  match raw with
  | JSVal.str s =>
      let normalized := lowerStrip s
      match WidgetAliases normalized with
      | some name => name
      | none =>
          let upperRaw := upperUnderscore s
          if (WidgetTypeNames upperRaw).isSome then upperRaw else "Unknown"
  | _ => "Unknown"

/-- `WidgetDetector.identify(config)` (`widgetDetector.js` lines 65–90):
`widget_type_id ?? type`, reject null/undefined, explicit numeric parse
against `WidgetTypeConstants`, then the string alias/name path. -/
def identify (config : Option IdentifyConfig) : String :=
  match config with
  | none => "Unknown"
  | some cfg =>
      match jsNullish cfg.widget_type_id cfg.type with
      | none => "Unknown"
      | some JSVal.jsNull => "Unknown"
      | some raw =>
          let numericId : Option Int :=
            match raw with
            | JSVal.num n => some n
            | JSVal.str s => jsParseInt s
            | JSVal.jsNull => none
          match numericId.bind WidgetTypeConstants with
          | some name => name
          | none => identifyString raw

end WidgetDetector

/-- One position of JavaScript substring matching: `sub` occurs at the head
of `l`. -/
def subAtHead (sub l : List Char) : Bool :=
  match sub, l with
  | [], _ => true
  | _ :: _, [] => false
  | a :: as, b :: bs => a == b && subAtHead as bs

/-- Whether `sub` occurs anywhere in `l`. -/
def subSomewhere (sub : List Char) : List Char → Bool
  | [] => sub.isEmpty
  | c :: tl => subAtHead sub (c :: tl) || subSomewhere sub tl

/-- JavaScript `s.includes(sub)`. -/
def jsIncludes (s sub : String) : Bool :=
  subSomewhere sub.toList s.toList

/-- Splits a character list at every character satisfying `p`, keeping empty
segments (the semantics of `String.split`). -/
def splitChars (p : Char → Bool) : List Char → List (List Char)
  | [] => [[]]
  | c :: tl =>
      let rest := splitChars p tl
      if p c then [] :: rest
      else
        match rest with
        | [] => [[c]]
        | w :: ws => (c :: w) :: ws

/-- The `hasClass` local helper of `WidgetDetector.discover`
(`widgetDetector.js` lines 188–190): the regex
`(^|\s)token(\s|$)` tested against the class string.  For the non-empty,
metacharacter-free tokens used by the signature table this is exactly
whitespace-delimited word membership. -/
def hasClass (classString token : String) : Bool :=
  (splitChars (fun c => c.isWhitespace) classString.toList).contains token.toList

/-- The `CSS_SIGNATURES` table of `widgetDetector.js` (lines 48–57):
class-token fingerprints, each bound to one widget type, in priority
order. -/
def CSS_SIGNATURES : List (List String × String) :=
  [ (["feedspace-vertical-scroll", "feedspace-updown", "vertical-marquee"],
      "MARQUEE_UPDOWN"),
    (["fe-feedspace-avatar-group-widget-wrap", "feedspace-avatar-group"],
      "AVATAR_GROUP"),
    (["feedspace-carousel-widget", "testimonial-slider", "carousel_slider"],
      "CAROUSEL_SLIDER"),
    (["feedspace-marque-main-wrap", "strip-slider"], "MARQUEE_STRIPE"),
    (["feedspace-floating-widget", "fe-floating-toast", "fe-toast-card",
      "fe-chat-bubble"], "FLOATING_TOAST"),
    (["feedspace-element-horizontal-scroll-widget",
      "feedspace-left-right-shadow"], "MARQUEE_LEFTRIGHT"),
    (["feedspace-single-review-widget", "single-slider",
      "feedspace-single-slider"], "SINGLE_SLIDER"),
    (["fe-masonry", "feedspace-masonry", "masonry-widget"], "MASONRY") ]

namespace WidgetDetector

/-- The CSS-signature scan of `WidgetDetector.discover` (PRIORITY 2,
`widgetDetector.js` lines 192–200): the first signature one of whose
class tokens occurs word-delimited in the collected class string wins. -/
def matchSignatures (classes : String) : Option String :=
  CSS_SIGNATURES.findSome? (fun signature =>
    if signature.1.any (fun cls => hasClass classes cls)
    then some signature.2 else none)

/-- The information `WidgetDetector.discover` extracts from the live DOM by
`locator.evaluate` (`widgetDetector.js` lines 103–161): the first
identifying attribute found (or `none`), the collected lowercased class
string, the lowercased first-800-character HTML snippet, and the
"is this a Feedspace widget at all" anchor flag. -/
structure DiscoverInfo where
  idAttr : Option String := none
  allClasses : String := ""
  htmlSnippet : String := ""
  isFeedspaceAnchor : Bool := false
deriving DecidableEq, Repr

/-- Attribute resolution of `WidgetDetector.discover` (PRIORITY 1,
`widgetDetector.js` lines 174–185): numeric parse against
`WidgetTypeConstants`, then the alias table, then the uppercased form
against the constant names; `none` when the attribute resolves to
nothing and the code falls through. -/
def resolveIdAttr (attr : String) : Option String :=
  match (jsParseInt attr).bind WidgetTypeConstants with
  | some name => some name
  | none =>
      let normalizedAttr := lowerStrip attr
      match WidgetAliases normalizedAttr with
      | some name => some name
      | none =>
          let upperAttr := upperUnderscore attr
          if (WidgetTypeNames upperAttr).isSome then some upperAttr else none

/-- PRIORITY 3 and PRIORITY 4 of `WidgetDetector.discover`
(`widgetDetector.js` lines 202–227): the anchor-based keyword fallback
(defaulting to MARQUEE_UPDOWN) when the anchor holds, else the plain
HTML-snippet keyword fallback, else `Unknown`. -/
def discoverFallback (info : DiscoverInfo) : String :=
  if info.isFeedspaceAnchor then
    let html := info.htmlSnippet
    if jsIncludes html "vertical-scroll" || jsIncludes html "updown" then
      "MARQUEE_UPDOWN"
    else if jsIncludes html "horizontal-scroll" || jsIncludes html "left-right" then
      "MARQUEE_LEFTRIGHT"
    else if jsIncludes html "carousel" then "CAROUSEL_SLIDER"
    else if jsIncludes html "strip-slider" then "MARQUEE_STRIPE"
    else "MARQUEE_UPDOWN"
  else
    let html := info.htmlSnippet
    if jsIncludes html "feedspace-vertical-scroll" || jsIncludes html "updown" then
      "MARQUEE_UPDOWN"
    else if jsIncludes html "feedspace-marque" || jsIncludes html "strip-slider" then
      "MARQUEE_STRIPE"
    else if jsIncludes html "carousel" then "CAROUSEL_SLIDER"
    else if jsIncludes html "masonry" then "MASONRY"
    else if jsIncludes html "floating-toast" || jsIncludes html "fe-toast" then
      "FLOATING_TOAST"
    else if jsIncludes html "horizontal-scroll" || jsIncludes html "left-right" then
      "MARQUEE_LEFTRIGHT"
    else if jsIncludes html "single-slider" || jsIncludes html "single-review" then
      "SINGLE_SLIDER"
    else if jsIncludes html "avatar-group" then "AVATAR_GROUP"
    else "Unknown"

/-- The classification logic of `WidgetDetector.discover` applied to the
extracted DOM information (`widgetDetector.js` lines 171–227): identifying
attribute first, then CSS signatures, then the fallbacks.  Evaluation
failure or timeout (which yield `Unknown` before this logic runs) is
outside this pure function. -/
def discoverLogic (info : DiscoverInfo) : String :=
  match info.idAttr with
  | some attr =>
      match resolveIdAttr attr with
      | some t => t
      | none =>
          match matchSignatures info.allClasses with
          | some t => t
          | none => discoverFallback info
  | none =>
      match matchSignatures info.allClasses with
      | some t => t
      | none => discoverFallback info

/-- The `resolve` local helper of `WidgetDetector.isSameType`
(`widgetDetector.js` lines 246–250): `null` for a falsy (empty) input,
else the alias-table value of the stripped lowercase form, else the
uppercased-underscore form.  JavaScript `||` takes the second operand
exactly when the alias lookup misses (alias values are non-empty, hence
truthy). -/
def resolve (t : String) : Option String :=
  if t.isEmpty then none
  else
    let n := lowerStrip t
    match WidgetAliases n with
    | some r => some r
    | none => some (upperUnderscore t)

/-- `WidgetDetector.isSameType(typeA, typeB)` (`widgetDetector.js` lines
245–252). -/
def isSameType (typeA typeB : String) : Bool :=
  resolve typeA == resolve typeB

end WidgetDetector

/-- The eight canonical widget names (the values of `WidgetTypeConstants`). -/
def canonicalNames : List String :=
  ["CAROUSEL_SLIDER", "MASONRY", "MARQUEE_STRIPE", "AVATAR_GROUP",
   "SINGLE_SLIDER", "MARQUEE_UPDOWN", "MARQUEE_LEFTRIGHT", "FLOATING_TOAST"]

/-- The thirteen alias strings (the keys of `WidgetAliases`). -/
def aliasStrings : List String :=
  ["stripslider", "strip_slider", "marqueeslider", "carouselslider",
   "carousel", "singleslider", "marqueeupdown", "marqueeuptown",
   "marqueeleftright", "floatingtoast", "avatargroup", "masonry",
   "marqueestripe"]

/-- The domain {canonical names} ∪ {aliases} over which the equivalence
contract of `isSameType` is stated. -/
def nameDomain : List String := canonicalNames ++ aliasStrings

/-- One tracked column/row of the scroll helpers: the position maps built by
`getPositions` at the first and third capture phase
(`verticalScrollHelper.js` lines 165–180).  Keys are the child indices
0–4; an entry is present only when `boundingBox()` returned a box. -/
structure TrackSample where
  initial : List (Nat × ℚ) := []
  final : List (Nat × ℚ) := []
deriving DecidableEq, Repr

/-- The per-track average displacement (`verticalScrollHelper.js` lines
102–111): sum of `final[id] - initial[id]` over the ids of `initial` that
are present in `final`, divided by their number, `0` when none. -/
def avgShift (t : TrackSample) : ℚ :=
  let shifts := t.initial.filterMap (fun p =>
    (t.final.lookup p.1).map (fun q => q - p.2))
  if shifts.length = 0 then 0 else shifts.sum / shifts.length

/-- Direction classification of `verticalScrollHelper.js` line 112. -/
def vDirection (s : ℚ) : String :=
  if s > 1 then "DOWN" else if s < -1 then "UP" else "STATIONARY"

/-- Direction classification of `horizontalScrollHelper.js` line 397
(in `floatingToastHelper.js` as bundled). -/
def hDirection (s : ℚ) : String :=
  if s > 1 then "RIGHT" else if s < -1 then "LEFT" else "STATIONARY"

/-- The widget configuration fields the scroll helpers consult. -/
structure ScrollConfig where
  marquee_direction : Option String := none
  horizontal_marquee_direction : Option String := none
  allow_cross_scrolling_animation : Option String := none
deriving DecidableEq, Repr

/-- `crossScrollingEnabled` of `VerticalScrollHelper.interact`
(`verticalScrollHelper.js` line 94). -/
def vCrossEnabled (config : ScrollConfig) : Bool :=
  config.marquee_direction == some "alter" ||
    config.allow_cross_scrolling_animation == some "1"

/-- `crossScrollingEnabled` of `HorizontalScrollHelper.interact`
(`horizontalScrollHelper.js` line 379 as bundled). -/
def hCrossEnabled (config : ScrollConfig) : Bool :=
  config.horizontal_marquee_direction == some "alter" ||
    config.allow_cross_scrolling_animation == some "1"

/-- Shared verdict logic of the two scroll helpers over the per-track
direction list (`verticalScrollHelper.js` lines 118–142,
`horizontalScrollHelper.js` lines 403–427): with two or more tracks,
compare the first two directions against the cross-scroll expectation;
with one track, fail exactly when it is stationary.  `posDir`/`negDir`
are the axis' two moving directions. -/
def trackVerdict (dirs : List String) (crossScrollingEnabled : Bool)
    (posDir negDir : String) : String :=
  match dirs with
  | dir1 :: dir2 :: _ =>
      let areOpposite := (dir1 == negDir && dir2 == posDir) ||
        (dir1 == posDir && dir2 == negDir)
      if crossScrollingEnabled then
        if !areOpposite then "FAIL" else "PASS"
      else
        if areOpposite then "FAIL" else "PASS"
  | [dir1] =>
      if dir1 == "STATIONARY" then "FAIL" else "PASS"
  | [] => "UNKNOWN"

/-- The analysis stage of `VerticalScrollHelper.interact`
(`verticalScrollHelper.js` lines 86–144): `UNKNOWN` with no tracked
columns, else classify each column from its sampled average shift and
apply the cross-scroll verdict to the first two directions. -/
def verticalAnalysis (tracks : List TrackSample) (config : ScrollConfig) :
    String :=
  if tracks.length = 0 then "UNKNOWN"
  else
    let colResults := tracks.map (fun t => vDirection (avgShift t))
    trackVerdict colResults (vCrossEnabled config) "DOWN" "UP"

/-- The analysis stage of `HorizontalScrollHelper.interact`
(`horizontalScrollHelper.js` lines 371–429 as bundled): as for the
vertical helper, along the x axis. -/
def horizontalAnalysis (tracks : List TrackSample) (config : ScrollConfig) :
    String :=
  if tracks.length = 0 then "UNKNOWN"
  else
    let rowResults := tracks.map (fun t => hDirection (avgShift t))
    trackVerdict rowResults (hCrossEnabled config) "RIGHT" "LEFT"

/-- A track whose single sampled child moved by `d` on the relevant axis. -/
def simpleTrack (d : ℚ) : TrackSample :=
  { initial := [(0, 0)], final := [(0, d)] }

/-- One feature record of the vision-analysis result (the shape produced by
the external service and by the fallback construction in
`aiEngine.js` lines 623–630). -/
structure FeatureRecord where
  feature : String
  ui_status : String
  config_status : String
  scenario : String
  status : String
  warning : Option String := none
deriving DecidableEq, Repr

/-- The parsed vision-analysis payload as far as `AIEngine` inspects it:
an optional `feature_results` array and an `overall_status` field. -/
structure AIData where
  feature_results : Option (List FeatureRecord) := none
  overall_status : Option String := none
deriving DecidableEq, Repr

/-- The outcome of one attempt of the external call inside the retry loop of
`AIEngine.analyzeScreenshot` (`aiEngine.js` lines 581–602): either the
successfully parsed payload (`null` from `JSON.parse` modelled as `none`),
or a raised error carrying whether its HTTP status was 429 and its
message. -/
inductive AttemptOutcome where
  | ok (aiResults : Option AIData)
  | failure (status429 : Bool) (msg : String)
deriving DecidableEq, Repr

/-- How one call to `AIEngine.analyzeScreenshot` ends: a returned value with
the total backoff delay waited, or an uncaught exception escaping the
method with the delay waited up to that point. -/
inductive RunOutcome where
  | returned (aiResults : Option AIData) (totalDelay : Nat)
  | thrown (msg : String) (totalDelay : Nat)
deriving DecidableEq, Repr

namespace AIEngine

/-- `this.maxRetries` (`aiEngine.js` line 568). -/
def maxRetries : Nat := 5

/-- `this.initialDelay` in milliseconds (`aiEngine.js` line 569). -/
def initialDelay : Nat := 5000

/-- `AIEngine.processResults(aiData, ...)` (`aiEngine.js` lines 641–650):
pass through a null payload or one without `feature_results`, else
recompute `overall_status` from the per-feature statuses.  The other
parameters of the source function are not read by its body. -/
def processResults (aiData : Option AIData) : Option AIData :=
  match aiData with
  | none => none
  | some d =>
      match d.feature_results with
      | none => some d
      | some frs =>
          let hasFailures := frs.any (fun f => f.status == "FAIL")
          let newStatus : String := if hasFailures then "FAIL" else "PASS"
          some { d with overall_status := some newStatus }

/-- The `while` loop of `AIEngine.analyzeScreenshot` (`aiEngine.js` lines
580–638), one recursive step per iteration; `attempts` and `delayAcc`
are the counter and the accumulated backoff delay.  The guard
`attempts <= maxRetries` is implied: the loop is entered with
`attempts = 0` and re-entered only from the branch that checked
`attempts' <= maxRetries`.  On any failure that is not retried, the
catch block evaluates `if (text)` where `text` is a `const` declared
inside the `try` block and thus not in scope, so the method throws a
`ReferenceError` instead of reaching the structured-error `return`
(`aiEngine.js` lines 617–636).  The `[]` case is a model artifact: a
real run supplies one outcome per attempt made. -/
def analyzeFrom (attempts delayAcc : Nat) :
    List AttemptOutcome → RunOutcome
  | [] => RunOutcome.thrown "model: attempt outcomes exhausted" delayAcc
  | o :: rest =>
      let currentAttempts := attempts + 1
      match o with
      | AttemptOutcome.ok aiResults =>
          RunOutcome.returned (processResults aiResults) delayAcc
      | AttemptOutcome.failure s429 msg =>
          let isRateLimit := jsIncludes msg "429" || s429
          if isRateLimit && currentAttempts ≤ maxRetries then
            analyzeFrom currentAttempts
              (delayAcc + initialDelay * 2 ^ (currentAttempts - 1)) rest
          else
            RunOutcome.thrown "ReferenceError: text is not defined" delayAcc

/-- `AIEngine.analyzeScreenshot` (`aiEngine.js` lines 572–639) on the path
where the API key is configured, as a function of the outcomes of the
successive external-call attempts. -/
def analyzeScreenshot (outcomes : List AttemptOutcome) : RunOutcome :=
  analyzeFrom 0 0 outcomes

end AIEngine

/-- A capture in the evidence bundle of `PlaywrightHelper.validateWithAI`:
either a full-page screenshot or a widget/element-scoped one. -/
inductive Shot where
  | fullPage
  | widgetShot
deriving DecidableEq, Repr

/-- The `typeMatchResult` record of `playwrightHelper.js`. -/
structure TypeMatch where
  expected : String
  detected : String
  matched : Bool
  reason : String
deriving DecidableEq, Repr

/-- The parts of the value returned by `PlaywrightHelper.validateWithAI`
(through `_finalizeAnalysis`) that the specification's zero-candidate
scenario constrains, plus the evidence bundle handed to
`analyzeScreenshot` (the non-null screenshot buffers). -/
structure VWAOutcome where
  widgetType : String
  typeMatchResult : Option TypeMatch
  analysisBundle : List Shot
deriving DecidableEq, Repr

/-- The early paths of `PlaywrightHelper.validateWithAI`
(`playwrightHelper.js` lines 169–211): the page-closed guard, then the
candidate count of the union selector `SELECTOR_STRING`; zero candidates
set `widgetType` to `Widget Not Found`, record an unmatched
`typeMatchResult`, push one full-page capture when the page is open, and
finalize.  The path with one or more candidates goes on to discovery and
interaction, whose effects on the live page are outside this model and
are supplied as `nonZeroPath`. -/
def validateWithAI (pageClosed : Bool) (matchCount : Nat)
    (expectedType : String) (nonZeroPath : VWAOutcome) : VWAOutcome :=
  if pageClosed then
    { widgetType := "Error",
      typeMatchResult := some
        { expected := expectedType, detected := "Error", matched := false,
          reason := "Page closed before validation" },
      analysisBundle := [] }
  else if matchCount = 0 then
    { widgetType := "Widget Not Found",
      typeMatchResult := some
        { expected := expectedType, detected := "Widget Not Found",
          matched := false,
          reason := "No Feedspace widget selectors found on the page — widget may not be embedded or is loaded in an iframe" },
      analysisBundle := if pageClosed then [] else [Shot.fullPage] }
  else nonZeroPath

/-- The keyword hints the anchor branch of `WidgetDetector.discover`
inspects in the HTML snippet (`widgetDetector.js` lines 207–210). -/
def anchorKeywordHit (html : String) : Bool :=
  jsIncludes html "vertical-scroll" || jsIncludes html "updown" ||
  jsIncludes html "horizontal-scroll" || jsIncludes html "left-right" ||
  jsIncludes html "carousel" || jsIncludes html "strip-slider"

/-- The keyword hints the PRIORITY 4 snippet fallback of
`WidgetDetector.discover` inspects (`widgetDetector.js` lines 218–225). -/
def snippetKeywordHit (html : String) : Bool :=
  jsIncludes html "feedspace-vertical-scroll" || jsIncludes html "updown" ||
  jsIncludes html "feedspace-marque" || jsIncludes html "strip-slider" ||
  jsIncludes html "carousel" || jsIncludes html "masonry" ||
  jsIncludes html "floating-toast" || jsIncludes html "fe-toast" ||
  jsIncludes html "horizontal-scroll" || jsIncludes html "left-right" ||
  jsIncludes html "single-slider" || jsIncludes html "single-review" ||
  jsIncludes html "avatar-group"

/-- A concrete parsed vision-analysis payload, used to instantiate the
retry theorems at a specific successful attempt. -/
def samplePayload : AIData :=
  { feature_results := some
      [ { feature := "Show Review Date", ui_status := "Visible",
          config_status := "Visible", scenario := "Normal",
          status := "PASS" } ],
    overall_status := none }

/-- C1: for every numeric code mapped in the taxonomy (4 through 11),
`identify({type: code})` returns exactly the canonical name bound to that
code, and for every integer code not in the taxonomy it returns
`Unknown` — i.e. the result is the `WidgetTypeConstants` entry with
default `Unknown`. -/
theorem identify_numeric_code (c : Int) :
    WidgetDetector.identify
      (some { widget_type_id := none, type := some (JSVal.num c) }) =
      (WidgetTypeConstants c).getD "Unknown" := by
  cases h : WidgetTypeConstants c <;>
    simp [WidgetDetector.identify, WidgetDetector.identifyString, jsNullish, h]

/-- C9: `widget_type_id` takes precedence over `type` whenever it is neither
null nor undefined — the result is then independent of the `type` field —
and in particular `identify({widget_type_id: 0, type: 4})` is `Unknown`
although `type` alone would map to `CAROUSEL_SLIDER`. -/
theorem identify_widget_type_id_precedence :
    (∀ (v : JSVal) (t t' : Option JSVal), v ≠ JSVal.jsNull →
      WidgetDetector.identify (some { widget_type_id := some v, type := t }) =
        WidgetDetector.identify
          (some { widget_type_id := some v, type := t' })) ∧
    WidgetDetector.identify
      (some { widget_type_id := some (JSVal.num 0),
              type := some (JSVal.num 4) }) = "Unknown" := by
  constructor
  · intro v t t' hv
    cases v with
    | num n => rfl
    | str s => rfl
    | jsNull => exact absurd rfl hv
  · decide

/-- Witness for C9 at the concrete input `{widget_type_id: 0, type: 4}`. -/
theorem identify_widget_type_id_precedence_witness :
    WidgetDetector.identify
        (some { widget_type_id := some (JSVal.num 0),
                type := some (JSVal.num 4) }) =
      WidgetDetector.identify
        (some { widget_type_id := some (JSVal.num 0), type := none }) ∧
    WidgetDetector.identify
        (some { widget_type_id := some (JSVal.num 0),
                type := some (JSVal.num 4) }) = "Unknown" :=
  ⟨identify_widget_type_id_precedence.1 (JSVal.num 0) (some (JSVal.num 4))
      none (by decide),
    identify_widget_type_id_precedence.2⟩

/-- C3: `isSameType` is reflexive and symmetric on
{canonical names} ∪ {aliases}, holds exactly when both sides resolve to
the same canonical name, and relates the backend name `MARQUEE_STRIPE`
to the frontend alias `stripslider`. -/
theorem isSameType_equivalence_contract :
    (∀ a ∈ nameDomain, WidgetDetector.isSameType a a = true) ∧
    (∀ a ∈ nameDomain, ∀ b ∈ nameDomain,
      WidgetDetector.isSameType a b = WidgetDetector.isSameType b a) ∧
    (∀ a ∈ nameDomain, ∀ b ∈ nameDomain,
      (WidgetDetector.isSameType a b = true ↔
        ∃ c ∈ canonicalNames, WidgetDetector.resolve a = some c ∧
          WidgetDetector.resolve b = some c)) ∧
    WidgetDetector.isSameType "MARQUEE_STRIPE" "stripslider" = true := by
  decide

/-- Witness for C3 at the documented alias pair. -/
theorem isSameType_equivalence_contract_witness :
    WidgetDetector.isSameType "MARQUEE_STRIPE" "stripslider" = true ∧
    (WidgetDetector.isSameType "MARQUEE_STRIPE" "stripslider" = true ↔
      ∃ c ∈ canonicalNames,
        WidgetDetector.resolve "MARQUEE_STRIPE" = some c ∧
          WidgetDetector.resolve "stripslider" = some c) :=
  ⟨isSameType_equivalence_contract.2.2.2,
    isSameType_equivalence_contract.2.2.1 "MARQUEE_STRIPE" (by decide)
      "stripslider" (by decide)⟩

/-- C4: CSS-signature matching is exact-token, never substring:
`"carousel_sliderwrap"` matches neither the `carousel_slider` token nor
any signature of the table, while `"foo carousel_slider bar"` matches the
CAROUSEL_SLIDER signature. -/
theorem css_signature_exact_token :
    hasClass "carousel_sliderwrap" "carousel_slider" = false ∧
    hasClass "foo carousel_slider bar" "carousel_slider" = true ∧
    WidgetDetector.matchSignatures "carousel_sliderwrap" = none ∧
    WidgetDetector.matchSignatures "foo carousel_slider bar" =
      some "CAROUSEL_SLIDER" := by
  decide

/-- C2 counterexample: with no identifying attribute, an empty class string
(so no CSS-signature token matches) and the anchor heuristic false,
`discover` does not return `Unknown` when the snippet holds a PRIORITY 4
keyword — here `"carousel"` yields `CAROUSEL_SLIDER`. -/
theorem discover_anchor_false_counterexample :
    WidgetDetector.matchSignatures "" = none ∧
    WidgetDetector.discoverLogic
        { idAttr := none, allClasses := "", htmlSnippet := "carousel",
          isFeedspaceAnchor := false } = "CAROUSEL_SLIDER" ∧
    WidgetDetector.discoverLogic
        { idAttr := none, allClasses := "", htmlSnippet := "carousel",
          isFeedspaceAnchor := false } ≠ "Unknown" := by
  decide

/-- C2 amended: with no identifying attribute resolved and no CSS-signature
token matched, if the anchor heuristic holds and no anchor keyword hint
occurs in the bounded snippet then `discover` returns the designated
fallback `MARQUEE_UPDOWN`; if the anchor does not hold, the PRIORITY 4
snippet keyword fallback is consulted and `discover` returns `Unknown`
exactly when none of its keywords occurs either. -/
theorem discover_unresolved_fallback (info : WidgetDetector.DiscoverInfo)
    (hAttr : info.idAttr.bind WidgetDetector.resolveIdAttr = none)
    (hCss : WidgetDetector.matchSignatures info.allClasses = none) :
    (info.isFeedspaceAnchor = true →
      anchorKeywordHit info.htmlSnippet = false →
      WidgetDetector.discoverLogic info = "MARQUEE_UPDOWN") ∧
    (info.isFeedspaceAnchor = false →
      snippetKeywordHit info.htmlSnippet = false →
      WidgetDetector.discoverLogic info = "Unknown") ∧
    (info.isFeedspaceAnchor = false →
      snippetKeywordHit info.htmlSnippet = true →
      WidgetDetector.discoverLogic info ≠ "Unknown") := by
  have hLogic : WidgetDetector.discoverLogic info =
      WidgetDetector.discoverFallback info := by
    cases hA : info.idAttr with
    | none => simp [WidgetDetector.discoverLogic, hA, hCss]
    | some a =>
        have hres : WidgetDetector.resolveIdAttr a = none := by
          simpa [hA] using hAttr
        simp [WidgetDetector.discoverLogic, hA, hres, hCss]
  refine ⟨?_, ?_, ?_⟩
  · intro hAnchor hKw
    simp only [anchorKeywordHit, Bool.or_eq_false_iff] at hKw
    rw [hLogic]
    simp_all [WidgetDetector.discoverFallback]
  · intro hAnchor hKw
    simp only [snippetKeywordHit, Bool.or_eq_false_iff] at hKw
    rw [hLogic]
    simp_all [WidgetDetector.discoverFallback]
  · intro hAnchor hKw
    rw [hLogic]
    intro hEq
    simp only [WidgetDetector.discoverFallback, hAnchor, Bool.false_eq_true,
      if_false] at hEq
    split_ifs at hEq <;>
      simp_all [snippetKeywordHit]

/-- Witness for C2's amended claim at three concrete inputs: an anchored
widget with an empty snippet defaults to `MARQUEE_UPDOWN`; an unanchored
element with an empty snippet is `Unknown`; an unanchored element whose
snippet holds the keyword `masonry` is not `Unknown`. -/
theorem discover_unresolved_fallback_witness :
    WidgetDetector.discoverLogic
        { idAttr := none, allClasses := "", htmlSnippet := "",
          isFeedspaceAnchor := true } = "MARQUEE_UPDOWN" ∧
    WidgetDetector.discoverLogic
        { idAttr := none, allClasses := "", htmlSnippet := "",
          isFeedspaceAnchor := false } = "Unknown" ∧
    WidgetDetector.discoverLogic
        { idAttr := none, allClasses := "", htmlSnippet := "masonry",
          isFeedspaceAnchor := false } ≠ "Unknown" :=
  ⟨(discover_unresolved_fallback _ (by decide) (by decide)).1
      (by decide) (by decide),
    (discover_unresolved_fallback _ (by decide) (by decide)).2.1
      (by decide) (by decide),
    (discover_unresolved_fallback _ (by decide) (by decide)).2.2
      (by decide) (by decide)⟩

/-- Sampled average displacement of a track whose single child moved by
`d`. -/
theorem avgShift_simpleTrack (d : ℚ) : avgShift (simpleTrack d) = d := by
  simp [avgShift, simpleTrack, List.lookup, List.filterMap, Option.map]

/-- C5: the movement verdict of both scroll helpers on the three reference
scenarios — opposite ±5px tracks without cross-scroll expectation FAIL,
two −5px tracks without cross-scroll expectation PASS, and a single
sub-threshold (stationary) track FAILs. -/
theorem movement_verdict_scenarios :
    verticalAnalysis [simpleTrack (-5), simpleTrack 5] {} = "FAIL" ∧
    verticalAnalysis [simpleTrack (-5), simpleTrack (-5)] {} = "PASS" ∧
    verticalAnalysis [simpleTrack (1/2)] {} = "FAIL" ∧
    horizontalAnalysis [simpleTrack (-5), simpleTrack 5] {} = "FAIL" ∧
    horizontalAnalysis [simpleTrack (-5), simpleTrack (-5)] {} = "PASS" ∧
    horizontalAnalysis [simpleTrack (1/2)] {} = "FAIL" := by
  refine ⟨?_, ?_, ?_, ?_, ?_, ?_⟩ <;>
    norm_num [verticalAnalysis, horizontalAnalysis, avgShift_simpleTrack,
      vDirection, hDirection, vCrossEnabled, hCrossEnabled, trackVerdict] <;>
    · intro h
      exact absurd h (by decide)

/-- C10: with two or more tracks the verdict of both scroll helpers is a
function of the first two tracks' directions (and the configuration)
alone — any further tracks are ignored. -/
theorem movement_verdict_first_two_tracks :
    (∀ (a a' b b' : TrackSample) (r r' : List TrackSample)
        (config : ScrollConfig),
      vDirection (avgShift a) = vDirection (avgShift a') →
      vDirection (avgShift b) = vDirection (avgShift b') →
      verticalAnalysis (a :: b :: r) config =
        verticalAnalysis (a' :: b' :: r') config) ∧
    (∀ (a a' b b' : TrackSample) (r r' : List TrackSample)
        (config : ScrollConfig),
      hDirection (avgShift a) = hDirection (avgShift a') →
      hDirection (avgShift b) = hDirection (avgShift b') →
      horizontalAnalysis (a :: b :: r) config =
        horizontalAnalysis (a' :: b' :: r') config) := by
  constructor <;>
  · intro a a' b b' r r' config h1 h2
    simp [verticalAnalysis, horizontalAnalysis, trackVerdict, h1, h2]

/-- Witness for C10: a third track moving by 100px does not change either
verdict. -/
theorem movement_verdict_first_two_tracks_witness :
    verticalAnalysis [simpleTrack (-5), simpleTrack (-5), simpleTrack 100] {} =
      verticalAnalysis [simpleTrack (-5), simpleTrack (-5)] {} ∧
    horizontalAnalysis
        [simpleTrack (-5), simpleTrack (-5), simpleTrack 100] {} =
      horizontalAnalysis [simpleTrack (-5), simpleTrack (-5)] {} :=
  ⟨movement_verdict_first_two_tracks.1 _ _ _ _ _ _ _ rfl rfl,
    movement_verdict_first_two_tracks.2 _ _ _ _ _ _ _ rfl rfl⟩

/-- C6: the external-analysis call is retried only on a rate-limit signal,
up to 5 retries, the delay before retry k being 5000ms·2^(k−1): after k
rate-limited attempts (k ≤ 5) a success returns the processed payload —
not an error record — with total waited delay 5000·(2^k − 1), which for
the two-failures-then-success scenario is 15000ms; a failure that is not
a rate-limit signal is never retried. -/
theorem analyze_retry_backoff :
    (∀ (k : Nat), k ≤ 5 →
      ∀ (msg : String) (d : Option AIData) (rest : List AttemptOutcome),
      AIEngine.analyzeScreenshot
          (List.replicate k (AttemptOutcome.failure true msg) ++
            AttemptOutcome.ok d :: rest) =
        RunOutcome.returned (AIEngine.processResults d)
          (AIEngine.initialDelay * (2 ^ k - 1))) ∧
    (∀ (s429 : Bool) (msg : String) (rest : List AttemptOutcome),
      (jsIncludes msg "429" || s429) = false →
      AIEngine.analyzeScreenshot (AttemptOutcome.failure s429 msg :: rest) =
        RunOutcome.thrown "ReferenceError: text is not defined" 0) := by
  constructor
  · intro k hk msg d rest
    interval_cases k <;>
      norm_num [AIEngine.analyzeScreenshot, AIEngine.analyzeFrom,
        AIEngine.maxRetries, AIEngine.initialDelay, List.replicate]
  · intro s429 msg rest h
    simp [AIEngine.analyzeScreenshot, AIEngine.analyzeFrom, h]

/-- Witness for C6: two rate-limited attempts then a success return the
processed payload after a total delay of 15000ms (5s + 10s). -/
theorem analyze_retry_backoff_witness :
    AIEngine.analyzeScreenshot
        [AttemptOutcome.failure true "429 Too Many Requests",
          AttemptOutcome.failure true "429 Too Many Requests",
          AttemptOutcome.ok (some samplePayload)] =
      RunOutcome.returned (AIEngine.processResults (some samplePayload))
        15000 := by
  have h := analyze_retry_backoff.1 2 (by norm_num) "429 Too Many Requests"
    (some samplePayload) []
  norm_num [List.replicate, AIEngine.initialDelay] at h
  exact h

/-- C7 (documenting the code defect): a non-rate-limit failure, and equally
rate-limit failures that exhaust the 5-retry ceiling, do not produce the
structured `ERROR` result with per-feature `UNKNOWN` placeholders — the
catch block's reference to the `try`-scoped `text` makes
`analyzeScreenshot` throw a `ReferenceError` instead. -/
theorem analyze_failure_throws :
    AIEngine.analyzeScreenshot
        [AttemptOutcome.failure false
          "SyntaxError: Unexpected token < in JSON"] =
      RunOutcome.thrown "ReferenceError: text is not defined" 0 ∧
    AIEngine.analyzeScreenshot
        (List.replicate 6 (AttemptOutcome.failure true "429 rate limit")) =
      RunOutcome.thrown "ReferenceError: text is not defined" 155000 := by
  decide

/-- C8: with the browsing context open and zero candidates matching the
union of structural widget selectors, `validateWithAI` yields
`widgetType = 'Widget Not Found'`, an unmatched `typeMatchResult`, and an
evidence bundle of exactly one full-page capture. -/
theorem validateWithAI_widget_not_found (expectedType : String)
    (nonZeroPath : VWAOutcome) :
    (validateWithAI false 0 expectedType nonZeroPath).widgetType =
        "Widget Not Found" ∧
    ((validateWithAI false 0 expectedType nonZeroPath).typeMatchResult).map
        TypeMatch.matched = some false ∧
    (validateWithAI false 0 expectedType nonZeroPath).analysisBundle =
      [Shot.fullPage] :=
  ⟨rfl, rfl, rfl⟩
